import Mathlib

set_option maxRecDepth 8192

/-!
Verification development for the plex black-suspect analyzer
(src/plex_black_suspect_analyzer.py).

Shallow embedding conventions:
- Python strings are Lean `String` (the analyzer only handles ASCII
  timestamps and URL-like thumbnail references; `str.isdigit` and
  `str.lower` are embedded at their ASCII meaning).
- Machine floats (`total_seconds()`, thresholds, the black ratio) are
  embedded as exact rationals `ℚ`; all quantities involved are integers
  or quotients of integers, which `float` represents exactly in the
  realistic range, and the spec states the comparisons over exact
  arithmetic.
- Fallible Python code (a raised exception escaping the function) is
  embedded as `Option`: `none` models an uncaught exception.
- The two network collaborators of `check_black_image` are oracles:
  `fetch : String → Option Bytes` (`none` models a
  `requests.RequestException`, i.e. transport error or a non-success
  status via `raise_for_status`) and `decode : Bytes → Option (List ℕ)` (`none`
  models `Image.open(...).convert("L")` raising; `some pixels` is the
  decoded 8-bit grayscale pixel sequence, each value intended < 256).
-/

/-- The three terminal per-item outcomes (`EvaluationResult`) of the
decision engine in `main` (lines 217-230 of the source). -/
inductive EvaluationResult where
  | NoAction
  | ReAnalyze
  | Refresh
deriving DecidableEq, Repr

/-- Embedding of Python `str.isdigit` at its ASCII meaning: non-empty
and every character a decimal digit.  (Python additionally accepts some
non-ASCII Unicode digit characters that `int()` then rejects; the
analyzer consumes XML attribute values that are ASCII decimal
timestamps, so the ASCII reading is the faithful one on its domain.) -/
def str_isdigit (s : String) : Bool :=
  !s.toList.isEmpty && s.toList.all Char.isDigit

/-- Embedding of Python `int(s)` on strings accepted by `str_isdigit`:
plain base-10 valuation of the character sequence. -/
def parse_nat (s : String) : ℕ :=
  s.toList.foldl (fun acc c => acc * 10 + (c.toNat - 48)) 0

/-- Largest Unix timestamp `datetime.fromtimestamp` accepts: the end of
year 9999 (datetime.MAXYEAR) in UTC, 253402300799.  Beyond this bound
`datetime.fromtimestamp` raises (ValueError / OverflowError) on every
platform; the exact cutoff shifts by at most the local UTC offset, which
does not matter for any bound used below. -/
def maxFromtimestamp : ℕ := 253402300799

/-- Embedding of `datetime.fromtimestamp(ts)` for non-negative `ts`,
up to the naive-datetime representation: the result is identified with
its timestamp (differences of two such datetimes in a fixed-offset
timezone equal plain timestamp subtraction), and `none` models the
exception raised past year 9999. -/
def datetime_fromtimestamp (ts : ℕ) : Option ℕ :=
  if ts ≤ maxFromtimestamp then some ts else none

/-- Executable comparison of an integer with a rational, by
cross-multiplication with the positive denominator:
`int_lt_rat x t = true ↔ (x : ℚ) < t` (see `int_lt_rat_iff`). -/
def int_lt_rat (x : ℤ) (t : ℚ) : Bool :=
  decide (x * t.den < t.num)

lemma int_lt_rat_iff (x : ℤ) (t : ℚ) : int_lt_rat x t = true ↔ (x : ℚ) < t := by
  rw [int_lt_rat, decide_eq_true_eq]
  nth_rewrite 3 [← Rat.num_div_den t]
  rw [lt_div_iff₀ (by exact_mod_cast t.den_pos)]
  constructor
  · intro h
    exact_mod_cast h
  · intro h
    exact_mod_cast h

/-- Embedding of `check_time_diff` (source lines 69-89).  Logging is
dropped (pure observer).  `none` models an exception escaping the
function: `datetime.fromtimestamp` raising on an out-of-range
timestamp.  The float `(fromtimestamp(u) - fromtimestamp(a)).total_seconds()`
is embedded as the exact integer difference, which it equals in a
fixed-offset timezone (both timestamps are below 2^53, so the float is
exact); the float comparison `diff_sec < threshold_sec` is the exact
comparison `int_lt_rat`. -/
def check_time_diff (added_str updated_str : String) (threshold_sec : ℚ) : Option Bool :=
  if str_isdigit added_str && str_isdigit updated_str then
    let added_ts := parse_nat added_str
    let updated_ts := parse_nat updated_str
    match datetime_fromtimestamp updated_ts, datetime_fromtimestamp added_ts with
    | some u, some a => some (int_lt_rat ((u : ℤ) - (a : ℤ)) threshold_sec)
    | _, _ => none
  else
    some false

example : check_time_diff "1000" "1010" 180 = some true := by decide
example : check_time_diff "1000" "5000" 180 = some false := by decide
example : check_time_diff "" "1010" 180 = some false := by decide
example : check_time_diff "abc" "1010" 180 = some false := by decide
example : check_time_diff "1000" "99999999999999999999" 180 = none := by decide

/-- The process-wide Plex connection configuration (`--plex-server`,
`--plex-port`, `--plex-token` in `main`). -/
structure PlexConfig where
  plex_server : String
  plex_port : String
  plex_token : String
deriving DecidableEq, Repr

/-- The configuration built from the source defaults in `main`. -/
def defaultConfig : PlexConfig :=
  { plex_server := "192.168.10.20", plex_port := "32400", plex_token := "YOUR_TOKEN" }

/-- Raw image bytes returned by the Image Fetcher. -/
abbrev Bytes := List ℕ

/-- Does the character list `needle` occur at the head of `hay`? -/
def chars_at_head : List Char → List Char → Bool
  | [], _ => true
  | _ :: _, [] => false
  | a :: as, b :: bs => a == b && chars_at_head as bs

/-- Does the character list `needle` occur anywhere in `hay`?
(Embedding of the Python substring test `needle in hay`.) -/
def chars_sub (needle : List Char) : List Char → Bool
  | [] => needle.isEmpty
  | c :: rest => chars_at_head needle (c :: rest) || chars_sub needle rest

/-- Embedding of the sentinel test on source line 97:
`"none" in thumb_url.lower()` (case-insensitive substring match,
ASCII lowering). -/
def thumb_is_none (thumb_url : String) : Bool :=
  chars_sub "none".toList (thumb_url.toList.map Char.toLower)

example : thumb_is_none "None" = true := by decide
example : thumb_is_none "/library/NONE/thumb" = true := by decide
example : thumb_is_none "/library/metadata/1/thumb" = false := by decide
example : thumb_is_none "" = false := by decide

/-- Embedding of source lines 105-108: a reference starting with "/" is
resolved against the server base, any other reference is used as-is. -/
def resolve_thumb_url (cfg : PlexConfig) (thumb_url : String) : String :=
  if chars_at_head "/".toList thumb_url.toList then
    "http://" ++ cfg.plex_server ++ ":" ++ cfg.plex_port ++ thumb_url
  else
    thumb_url

/-- The 256-bucket grayscale histogram of source line 123
(`img.histogram()` on an 8-bit "L" image): bucket `level` counts the
pixels at gray value `level`. -/
def histogram (pixels : List ℕ) (level : ℕ) : ℕ :=
  pixels.count level

/-- Embedding of `sum(hist)` on source line 124: the total over the 256 buckets. -/
def total_pixels (pixels : List ℕ) : ℕ :=
  ∑ level ∈ Finset.range 256, histogram pixels level

/-- Executable comparison `num / den ≥ t` (for `den > 0`) by
cross-multiplication: see `ratio_ge_iff`. Embeds the float comparison
`black_ratio >= blackness_threshold` on source line 131. -/
def ratio_ge (num den : ℕ) (t : ℚ) : Bool :=
  decide (t.num * (den : ℤ) ≤ (num : ℤ) * (t.den : ℤ))

lemma ratio_ge_iff (num den : ℕ) (t : ℚ) (hden : 0 < den) :
    ratio_ge num den t = true ↔ t ≤ (num : ℚ) / (den : ℚ) := by
  rw [ratio_ge, decide_eq_true_eq]
  rw [le_div_iff₀ (by exact_mod_cast hden)]
  nth_rewrite 3 [← Rat.num_div_den t]
  rw [div_mul_eq_mul_div, div_le_iff₀ (by exact_mod_cast t.den_pos)]
  constructor
  · intro h
    exact_mod_cast h
  · intro h
    exact_mod_cast h

/-- One run of `check_black_image` (source lines 92-140), instrumented:
`result` is the returned boolean; `fetch_arg` records the argument of
the single `requests.get` call site (line 111) when control reaches it,
`none` when no fetch occurs. -/
structure BlackCheckRun where
  result : Bool
  fetch_arg : Option String
deriving DecidableEq, Repr

/-- Embedding of `check_black_image` (source lines 92-140).  Logging is
dropped (pure observer).  `pil_available` is the import-time flag
`PIL_AVAILABLE` (source lines 13-17).  `fetch url = none` models
`requests.get`/`raise_for_status` raising a `RequestException`;
`decode content = none` models `Image.open(BytesIO(content)).convert("L")`
raising, and `decode content = some pixels` is the decoded grayscale
image's pixel sequence. -/
def check_black_image (pil_available : Bool) (cfg : PlexConfig)
    (fetch : String → Option Bytes) (decode : Bytes → Option (List ℕ))
    (thumb_url : String) (blackness_threshold : ℚ) : BlackCheckRun :=
  if thumb_url = "" || thumb_is_none thumb_url then
    { result := false, fetch_arg := none }
  else if pil_available = false then
    { result := false, fetch_arg := none }
  else
    let thumb_url_full := resolve_thumb_url cfg thumb_url
    match fetch thumb_url_full with
    | none => { result := true, fetch_arg := some thumb_url_full }
    | some content =>
      match decode content with
      | none => { result := false, fetch_arg := some thumb_url_full }
      | some pixels =>
        if total_pixels pixels = 0 then
          { result := false, fetch_arg := some thumb_url_full }
        else
          { result := ratio_ge (histogram pixels 0) (total_pixels pixels) blackness_threshold,
            fetch_arg := some thumb_url_full }

example :
    check_black_image true defaultConfig (fun _ => none) (fun _ => none) "" 1 =
      { result := false, fetch_arg := none } := by decide
example :
    check_black_image true defaultConfig (fun _ => none) (fun _ => none) "/thumb" 1 =
      { result := true, fetch_arg := some "http://192.168.10.20:32400/thumb" } := by decide
example :
    check_black_image true defaultConfig (fun _ => some [7]) (fun _ => none) "/thumb" 1 =
      { result := false, fetch_arg := some "http://192.168.10.20:32400/thumb" } := by decide
example :
    check_black_image true defaultConfig (fun _ => some [7]) (fun _ => some [0, 0, 0]) "/thumb" 1 =
      { result := true, fetch_arg := some "http://192.168.10.20:32400/thumb" } := by decide
example :
    check_black_image true defaultConfig (fun _ => some [7]) (fun _ => some [255, 255]) "/thumb" 1 =
      { result := false, fetch_arg := some "http://192.168.10.20:32400/thumb" } := by decide
example :
    check_black_image false defaultConfig (fun _ => none) (fun _ => none) "/thumb" 1 =
      { result := false, fetch_arg := none } := by decide

/-- A `CatalogItem` as produced by `fetch_library_items` (source lines
57-66): the `(ratingKey, title, addedAt, updatedAt, thumb)` tuple of XML
attribute strings. -/
structure CatalogItem where
  rating_key : String
  title : String
  added_at : String
  updated_at : String
  thumb : String
deriving DecidableEq, Repr

/-- The per-item dispatch of `main` (source lines 217-230) as a pure
function of the two computed booleans and the `--force-black-check`
flag. -/
def decide_action (suspicious black force_black_check : Bool) : EvaluationResult :=
  if suspicious then
    if black then EvaluationResult.ReAnalyze else EvaluationResult.Refresh
  else
    if force_black_check && black then EvaluationResult.ReAnalyze
    else EvaluationResult.NoAction

/-- One item's pass through the loop body of `main` (source lines
200-215), instrumented: `suspicious` is the `check_time_diff` result,
`black_check_run` records whether `check_black_image` was invoked,
`black` is the blackness boolean the dispatch reads, and `fetch_arg`
is the instrumentation of the `requests.get` call site inside
`check_black_image` (`none` when no fetch occurred). -/
structure ItemEvaluation where
  suspicious : Bool
  black_check_run : Bool
  black : Bool
  fetch_arg : Option String
deriving DecidableEq, Repr

/-- Embedding of the evaluation part of the loop body of `main` (source
lines 200-215): `check_time_diff`, the gating of `check_black_image`
behind `suspicious or args.force_black_check`, and the default
`black = False`.  `none` models an exception escaping the loop
(`check_time_diff` raising). -/
def evaluate_item (pil_available : Bool) (cfg : PlexConfig) (force_black_check : Bool)
    (time_diff_sec blackness_threshold : ℚ)
    (fetch : String → Option Bytes) (decode : Bytes → Option (List ℕ))
    (item : CatalogItem) : Option ItemEvaluation :=
  match check_time_diff item.added_at item.updated_at time_diff_sec with
  | none => none
  | some suspicious =>
    let do_black_check := suspicious || force_black_check
    if do_black_check then
      let run := check_black_image pil_available cfg fetch decode item.thumb blackness_threshold
      some { suspicious := suspicious, black_check_run := true,
             black := run.result, fetch_arg := run.fetch_arg }
    else
      some { suspicious := suspicious, black_check_run := false,
             black := false, fetch_arg := none }

/-- Embedding of `put_analyze` (source lines 143-151): `call_ok = true`
models the PUT succeeding (info log), `call_ok = false` models
`requests.RequestException` being raised, caught inside the function
and logged.  Total by construction: no exception escapes. -/
def put_analyze (call_ok : Bool) (rating_key : String) : String :=
  if call_ok then
    "ANALYZE [PUT] ratingKey=" ++ rating_key
  else
    "ANALYZE失敗 (ratingKey=" ++ rating_key ++ ")"

/-- Embedding of `put_refresh` (source lines 154-162), as for
`put_analyze`. -/
def put_refresh (call_ok : Bool) (rating_key : String) : String :=
  if call_ok then
    "REFRESH [PUT] ratingKey=" ++ rating_key
  else
    "REFRESH失敗 (ratingKey=" ++ rating_key ++ ")"

/-- The action call performed for a dispatched `EvaluationResult`:
the produced log line, or `none` when no action call is made. -/
def dispatch_action (call_ok : Bool) (rating_key : String) :
    EvaluationResult → Option String
  | EvaluationResult.ReAnalyze => some (put_analyze call_ok rating_key)
  | EvaluationResult.Refresh => some (put_refresh call_ok rating_key)
  | EvaluationResult.NoAction => none

/-- The record of one processed item: its key, the dispatched action,
and the log line of the action call (if any). -/
structure ItemRecord where
  rating_key : String
  action : EvaluationResult
  action_log : Option String
deriving DecidableEq, Repr

/-- Embedding of the per-item loop of `main` (source lines 200-230):
each item is evaluated, its action decided and dispatched, and the loop
proceeds to the next item.  `action_ok key act` is the Action Executor
oracle: whether the PUT for action `act` on item `key` succeeds.
`none` models an exception escaping the loop (only `check_time_diff`
can raise; action failures are caught inside `put_analyze` /
`put_refresh`). -/
def run_items (pil_available : Bool) (cfg : PlexConfig) (force_black_check : Bool)
    (time_diff_sec blackness_threshold : ℚ)
    (fetch : String → Option Bytes) (decode : Bytes → Option (List ℕ))
    (action_ok : String → EvaluationResult → Bool) :
    List CatalogItem → Option (List ItemRecord)
  | [] => some []
  | item :: rest =>
    match evaluate_item pil_available cfg force_black_check
        time_diff_sec blackness_threshold fetch decode item with
    | none => none
    | some ev =>
      let act := decide_action ev.suspicious ev.black force_black_check
      match run_items pil_available cfg force_black_check
          time_diff_sec blackness_threshold fetch decode action_ok rest with
      | none => none
      | some recs =>
        some ({ rating_key := item.rating_key, action := act,
                action_log := dispatch_action (action_ok item.rating_key act) item.rating_key act }
              :: recs)

example :
    evaluate_item true defaultConfig false 180 1 (fun _ => none) (fun _ => none)
      { rating_key := "1", title := "t", added_at := "1000", updated_at := "1010", thumb := "" } =
      some { suspicious := true, black_check_run := true, black := false, fetch_arg := none } := by
  decide

example :
    evaluate_item true defaultConfig false 180 1 (fun _ => none) (fun _ => none)
      { rating_key := "1", title := "t", added_at := "1000", updated_at := "5000", thumb := "/t" } =
      some { suspicious := false, black_check_run := false, black := false, fetch_arg := none } := by
  decide

example :
    run_items true defaultConfig false 180 1 (fun _ => none) (fun _ => none) (fun _ _ => false)
      [{ rating_key := "1", title := "a", added_at := "1000", updated_at := "1005", thumb := "/t" },
       { rating_key := "2", title := "b", added_at := "1000", updated_at := "1010", thumb := "" }] =
      some [{ rating_key := "1", action := EvaluationResult.ReAnalyze,
              action_log := some "ANALYZE失敗 (ratingKey=1)" },
            { rating_key := "2", action := EvaluationResult.Refresh,
              action_log := some "REFRESH失敗 (ratingKey=2)" }] := by
  decide

/-- C1: for every item, given the computed booleans `suspicious` and
`black` and the `--force-black-check` flag, the dispatch of `main`
(embedded as `decide_action`) matches the section 4.3 table exactly:
(suspicious, black) yields ReAnalyze; (suspicious, not black) yields
Refresh; (not suspicious, not forced) yields NoAction; (not suspicious,
forced, black) yields ReAnalyze; (not suspicious, forced, not black)
yields NoAction; and exactly one of the three outcomes is produced. -/
theorem decide_action_matches_table :
    ∀ suspicious black forced : Bool,
      decide_action true true forced = EvaluationResult.ReAnalyze
      ∧ decide_action true false forced = EvaluationResult.Refresh
      ∧ decide_action false black false = EvaluationResult.NoAction
      ∧ decide_action false true true = EvaluationResult.ReAnalyze
      ∧ decide_action false false true = EvaluationResult.NoAction
      ∧ (decide_action suspicious black forced = EvaluationResult.NoAction
         ∨ decide_action suspicious black forced = EvaluationResult.ReAnalyze
         ∨ decide_action suspicious black forced = EvaluationResult.Refresh) := by
  decide

/-- C2: for every item whose loop-body evaluation completes,
`check_black_image` is invoked iff the temporal check returned true or
the `--force-black-check` flag is set; when it is not invoked, `black`
is `false` and the `requests.get` call site is never reached. -/
theorem black_check_gating (pil : Bool) (cfg : PlexConfig) (force : Bool)
    (tsec bthr : ℚ) (fetch : String → Option Bytes) (decode : Bytes → Option (List ℕ))
    (item : CatalogItem) (ev : ItemEvaluation)
    (h : evaluate_item pil cfg force tsec bthr fetch decode item = some ev) :
    ev.black_check_run = (ev.suspicious || force)
    ∧ (ev.black_check_run = false → ev.black = false ∧ ev.fetch_arg = none) := by
  unfold evaluate_item at h
  cases hc : check_time_diff item.added_at item.updated_at tsec with
  | none => rw [hc] at h; exact absurd h (by simp)
  | some suspicious =>
    rw [hc] at h
    dsimp only at h
    by_cases hg : (suspicious || force) = true
    · rw [if_pos hg] at h
      cases h
      simpa using hg.symm
    · rw [if_neg hg] at h
      cases h
      simp only [Bool.not_eq_true] at hg
      exact ⟨hg.symm, fun _ => ⟨rfl, rfl⟩⟩

/-- Concrete instance of `black_check_gating`. -/
def ev_gating_ex : ItemEvaluation :=
  { suspicious := true, black_check_run := true, black := false, fetch_arg := none }

theorem black_check_gating_witness :
    ev_gating_ex.black_check_run = (ev_gating_ex.suspicious || false)
    ∧ (ev_gating_ex.black_check_run = false →
        ev_gating_ex.black = false ∧ ev_gating_ex.fetch_arg = none) :=
  black_check_gating true defaultConfig false 180 1 (fun _ => none) (fun _ => none)
    { rating_key := "1", title := "t", added_at := "1000", updated_at := "1010", thumb := "" }
    ev_gating_ex (by decide)

/-- C5: a thumbnail reference that is empty or contains "none"
case-insensitively makes `check_black_image` return false without
reaching the fetch call site, for every threshold, fetcher, decoder and
PIL state. -/
theorem empty_or_none_ref_short_circuits (pil : Bool) (cfg : PlexConfig)
    (fetch : String → Option Bytes) (decode : Bytes → Option (List ℕ))
    (url : String) (thr : ℚ)
    (h : url = "" ∨ thumb_is_none url = true) :
    check_black_image pil cfg fetch decode url thr = { result := false, fetch_arg := none } := by
  unfold check_black_image
  rcases h with h | h
  · simp [h]
  · simp [h]

theorem empty_or_none_ref_short_circuits_witness :
    check_black_image true defaultConfig (fun _ => none) (fun _ => none) "None" 1 =
      { result := false, fetch_arg := none } :=
  empty_or_none_ref_short_circuits true defaultConfig (fun _ => none) (fun _ => none)
    "None" 1 (Or.inr (by decide))

/-- C10: when PIL is unavailable at import time, `check_black_image`
returns false for every non-empty, non-"none" reference and every
threshold, without ever reaching the fetch call site. -/
theorem pil_unavailable_never_black (cfg : PlexConfig)
    (fetch : String → Option Bytes) (decode : Bytes → Option (List ℕ))
    (url : String) (thr : ℚ)
    (h1 : ¬ url = "") (h2 : thumb_is_none url = false) :
    check_black_image false cfg fetch decode url thr = { result := false, fetch_arg := none } := by
  unfold check_black_image
  simp [h1, h2]

theorem pil_unavailable_never_black_witness :
    check_black_image false defaultConfig (fun _ => none) (fun _ => none) "/thumb" 1 =
      { result := false, fetch_arg := none } :=
  pil_unavailable_never_black defaultConfig (fun _ => none) (fun _ => none)
    "/thumb" 1 (by decide) (by decide)

lemma int_lt_rat_eq_decide (x : ℤ) (t : ℚ) :
    int_lt_rat x t = decide ((x : ℚ) < t) := by
  rw [Bool.eq_iff_iff, int_lt_rat_iff, decide_eq_true_eq]

/-- C3 counterexample: both timestamp strings parse as the non-negative
integer 253402300800 (the first second of year 10000) and the plain
difference 0 is below the threshold 180, yet `check_time_diff` does not
return true: it raises (`datetime.fromtimestamp` is out of range),
embedded as `none`. -/
theorem check_time_diff_overflow_breaks_iff :
    str_isdigit "253402300800" = true
    ∧ parse_nat "253402300800" = 253402300800
    ∧ ((0 : ℚ) < 180)
    ∧ check_time_diff "253402300800" "253402300800" 180 = none := by
  refine ⟨by decide, by decide, by decide, by decide⟩

/-- C3 (amended): for every pair of timestamp strings that parse as
non-negative integers representable by `datetime.fromtimestamp` (at
most `maxFromtimestamp`) and every threshold, `check_time_diff` returns
true iff `updatedAt - addedAt` (plain integer subtraction in seconds,
possibly negative) is strictly below the threshold in seconds. -/
theorem check_time_diff_suspicion_iff_in_range (s t : String) (thr : ℚ)
    (hs : str_isdigit s = true) (ht : str_isdigit t = true)
    (hs2 : parse_nat s ≤ maxFromtimestamp) (ht2 : parse_nat t ≤ maxFromtimestamp) :
    check_time_diff s t thr
      = some (decide ((((parse_nat t : ℤ) - (parse_nat s : ℤ) : ℤ) : ℚ) < thr)) := by
  unfold check_time_diff datetime_fromtimestamp
  rw [hs, ht]
  simp only [Bool.and_self, if_true, hs2, ht2, if_pos]
  rw [int_lt_rat_eq_decide]

theorem check_time_diff_suspicion_iff_in_range_witness :
    check_time_diff "1000" "1010" 180
      = some (decide ((((parse_nat "1010" : ℤ) - (parse_nat "1000" : ℤ) : ℤ) : ℚ) < 180)) :=
  check_time_diff_suspicion_iff_in_range "1000" "1010" 180
    (by decide) (by decide) (by decide) (by decide)

/-- C4 counterexample: "99999999999999999999" is a pure digit string,
but `check_time_diff` on it does not return a boolean: it raises
(`datetime.fromtimestamp` is out of range), embedded as `none`. -/
theorem check_time_diff_raises_on_huge :
    str_isdigit "99999999999999999999" = true
    ∧ check_time_diff "1000" "99999999999999999999" 180 = none := by
  refine ⟨by decide, by decide⟩

/-- C4 (amended): `check_time_diff` returns `false` whenever either
timestamp string is empty or non-numeric, regardless of the other
field; and it returns a boolean without raising whenever both parsed
values are representable by `datetime.fromtimestamp` (at most
`maxFromtimestamp`). -/
theorem check_time_diff_total_on_bounded (s t : String) (thr : ℚ) :
    (str_isdigit s = false ∨ str_isdigit t = false →
      check_time_diff s t thr = some false)
    ∧ (parse_nat s ≤ maxFromtimestamp → parse_nat t ≤ maxFromtimestamp →
      (check_time_diff s t thr).isSome = true) := by
  constructor
  · intro h
    unfold check_time_diff
    rcases h with h | h <;> simp [h]
  · intro hs ht
    unfold check_time_diff datetime_fromtimestamp
    by_cases h1 : str_isdigit s = true
    · by_cases h2 : str_isdigit t = true
      · simp [h1, h2, hs, ht]
      · simp only [Bool.not_eq_true] at h2
        simp [h1, h2]
    · simp only [Bool.not_eq_true] at h1
      simp [h1]

theorem check_time_diff_total_on_bounded_witness :
    check_time_diff "" "x" 180 = some false
    ∧ (check_time_diff "" "x" 180).isSome = true :=
  ⟨(check_time_diff_total_on_bounded "" "x" 180).1 (Or.inl (by decide)),
   (check_time_diff_total_on_bounded "" "x" 180).2 (by decide) (by decide)⟩

/-- C6: for every valid thumbnail reference (non-empty, no "none") and
every threshold, with PIL available, `check_black_image` returns true
whenever the fetch fails, and returns false whenever the fetch succeeds
but decoding fails — independent of the threshold value. -/
theorem fetch_decode_failure_asymmetry (cfg : PlexConfig)
    (fetch : String → Option Bytes) (decode : Bytes → Option (List ℕ))
    (url : String) (thr : ℚ)
    (h1 : ¬ url = "") (h2 : thumb_is_none url = false) :
    (fetch (resolve_thumb_url cfg url) = none →
      (check_black_image true cfg fetch decode url thr).result = true)
    ∧ (∀ content : Bytes, fetch (resolve_thumb_url cfg url) = some content →
        decode content = none →
        (check_black_image true cfg fetch decode url thr).result = false) := by
  constructor
  · intro hf
    unfold check_black_image
    simp [h1, h2, hf]
  · intro content hf hd
    unfold check_black_image
    simp [h1, h2, hf, hd]

theorem fetch_decode_failure_asymmetry_witness :
    (check_black_image true defaultConfig (fun _ => none) (fun _ => none) "/t" 1).result = true
    ∧ (check_black_image true defaultConfig (fun _ => some [7]) (fun _ => none) "/t" 1).result
        = false :=
  ⟨(fetch_decode_failure_asymmetry defaultConfig (fun _ => none) (fun _ => none) "/t" 1
      (by decide) (by decide)).1 rfl,
   (fetch_decode_failure_asymmetry defaultConfig (fun _ => some [7]) (fun _ => none) "/t" 1
      (by decide) (by decide)).2 [7] rfl rfl⟩

/-- C8: thumbnail reference resolution is a pure string operation done
before the fetch: a reference beginning with "/" gets the server base
(scheme, host, port) prepended, any other reference is unchanged; and
whatever argument the fetch call site receives is exactly the resolved
reference. -/
theorem thumb_resolution_pure (cfg : PlexConfig) (url : String) :
    (chars_at_head "/".toList url.toList = true →
      resolve_thumb_url cfg url = "http://" ++ cfg.plex_server ++ ":" ++ cfg.plex_port ++ url)
    ∧ (chars_at_head "/".toList url.toList = false → resolve_thumb_url cfg url = url)
    ∧ (∀ (pil : Bool) (fetch : String → Option Bytes) (decode : Bytes → Option (List ℕ))
         (thr : ℚ) (u : String),
        (check_black_image pil cfg fetch decode url thr).fetch_arg = some u →
        u = resolve_thumb_url cfg url) := by
  refine ⟨fun h => ?_, fun h => ?_, fun pil fetch decode thr u h => ?_⟩
  · unfold resolve_thumb_url
    rw [if_pos h]
  · unfold resolve_thumb_url
    have h2 : ¬ (chars_at_head "/".toList url.toList = true) := by
      rw [h]
      exact Bool.false_ne_true
    rw [if_neg h2]
  · unfold check_black_image at h
    by_cases hg : (decide (url = "") || thumb_is_none url) = true
    · rw [if_pos hg] at h
      exact absurd h (by simp)
    · rw [if_neg hg] at h
      by_cases hp : pil = false
      · rw [if_pos hp] at h
        exact absurd h (by simp)
      · rw [if_neg hp] at h
        dsimp only at h
        cases hf : fetch (resolve_thumb_url cfg url) with
        | none =>
          rw [hf] at h
          cases h
          rfl
        | some content =>
          rw [hf] at h
          dsimp only at h
          cases hd : decode content with
          | none =>
            rw [hd] at h
            cases h
            rfl
          | some pixels =>
            rw [hd] at h
            dsimp only at h
            by_cases ht : total_pixels pixels = 0
            · rw [if_pos ht] at h
              cases h
              rfl
            · rw [if_neg ht] at h
              cases h
              rfl

theorem thumb_resolution_pure_witness :
    resolve_thumb_url defaultConfig "/thumb"
      = "http://" ++ defaultConfig.plex_server ++ ":" ++ defaultConfig.plex_port ++ "/thumb"
    ∧ resolve_thumb_url defaultConfig "x" = "x"
    ∧ "http://192.168.10.20:32400/thumb" = resolve_thumb_url defaultConfig "/thumb" :=
  ⟨(thumb_resolution_pure defaultConfig "/thumb").1 (by decide),
   (thumb_resolution_pure defaultConfig "x").2.1 (by decide),
   (thumb_resolution_pure defaultConfig "/thumb").2.2 true (fun _ => none) (fun _ => none) 1
     "http://192.168.10.20:32400/thumb" (by decide)⟩

lemma total_pixels_of_all (v : ℕ) (hv : v < 256) (pixels : List ℕ)
    (h : ∀ p ∈ pixels, p = v) : total_pixels pixels = pixels.length := by
  unfold total_pixels histogram
  rw [Finset.sum_eq_single v]
  · exact List.count_eq_length.mpr (fun b hb => (h b hb).symm)
  · intro b _ hbv
    exact List.count_eq_zero.mpr (fun hmem => hbv (h b hmem))
  · intro hvmem
    exact absurd (Finset.mem_range.mpr hv) hvmem

lemma black_check_result_on_decoded (cfg : PlexConfig)
    (fetch : String → Option Bytes) (decode : Bytes → Option (List ℕ))
    (url : String) (thr : ℚ) (content : Bytes) (pixels : List ℕ)
    (h1 : ¬ url = "") (h2 : thumb_is_none url = false)
    (hf : fetch (resolve_thumb_url cfg url) = some content)
    (hd : decode content = some pixels) :
    (check_black_image true cfg fetch decode url thr).result
      = (if total_pixels pixels = 0 then false
         else ratio_ge (histogram pixels 0) (total_pixels pixels) thr) := by
  unfold check_black_image
  simp [h1, h2, hf, hd]
  by_cases ht : total_pixels pixels = 0
  · simp [ht]
  · simp [ht]

/-- C7: for every successfully fetched and decoded image (valid
reference, PIL available): a zero total pixel count yields false;
otherwise the result is true iff (pixels at gray level 0) / (total
pixels) is at least the blackness threshold, counting only level 0 as
black; in particular an all-black image yields true for every threshold
at most 1 and an all-white image yields false for every positive
threshold. -/
theorem black_ratio_rule (cfg : PlexConfig)
    (fetch : String → Option Bytes) (decode : Bytes → Option (List ℕ))
    (url : String) (thr : ℚ) (content : Bytes) (pixels : List ℕ)
    (h1 : ¬ url = "") (h2 : thumb_is_none url = false)
    (hf : fetch (resolve_thumb_url cfg url) = some content)
    (hd : decode content = some pixels) :
    (total_pixels pixels = 0 →
      (check_black_image true cfg fetch decode url thr).result = false)
    ∧ (0 < total_pixels pixels →
      ((check_black_image true cfg fetch decode url thr).result = true
        ↔ thr ≤ (histogram pixels 0 : ℚ) / (total_pixels pixels : ℚ)))
    ∧ (pixels ≠ [] → (∀ p ∈ pixels, p = 0) → thr ≤ 1 →
      (check_black_image true cfg fetch decode url thr).result = true)
    ∧ (0 < thr → (∀ p ∈ pixels, p = 255) →
      (check_black_image true cfg fetch decode url thr).result = false) := by
  have hres := black_check_result_on_decoded cfg fetch decode url thr content pixels h1 h2 hf hd
  refine ⟨fun ht => ?_, fun ht => ?_, fun hne hall hthr => ?_, fun hthr hall => ?_⟩
  · rw [hres, if_pos ht]
  · rw [hres, if_neg (Nat.pos_iff_ne_zero.mp ht)]
    exact ratio_ge_iff (histogram pixels 0) (total_pixels pixels) thr ht
  · have hlen : pixels.length ≠ 0 := fun h => hne (List.length_eq_zero.mp h)
    have htot : total_pixels pixels = pixels.length :=
      total_pixels_of_all 0 (by norm_num) pixels hall
    have hcount : histogram pixels 0 = pixels.length := by
      unfold histogram
      exact List.count_eq_length.mpr (fun b hb => (hall b hb).symm)
    rw [hres, if_neg (by rw [htot]; exact hlen)]
    rw [ratio_ge_iff _ _ _ (by rw [htot]; exact Nat.pos_of_ne_zero hlen)]
    rw [htot, hcount, div_self (by exact_mod_cast hlen)]
    exact hthr
  · have htot : total_pixels pixels = pixels.length :=
      total_pixels_of_all 255 (by norm_num) pixels hall
    have hcount : histogram pixels 0 = 0 := by
      unfold histogram
      refine List.count_eq_zero.mpr (fun hmem => ?_)
      have := hall 0 hmem
      omega
    by_cases hz : total_pixels pixels = 0
    · rw [hres, if_pos hz]
    · rw [hres, if_neg hz, hcount]
      have hiff := ratio_ge_iff 0 (total_pixels pixels) thr (Nat.pos_of_ne_zero hz)
      simp only [Nat.cast_zero, zero_div] at hiff
      have hnle : ¬ (thr ≤ 0) := not_le.mpr hthr
      cases hb : ratio_ge 0 (total_pixels pixels) thr
      · rfl
      · exact absurd (hiff.mp hb) hnle

theorem black_ratio_rule_witness :
    (check_black_image true defaultConfig (fun _ => some [7]) (fun _ => some ([] : List ℕ))
        "/t" 1).result = false
    ∧ (check_black_image true defaultConfig (fun _ => some [7]) (fun _ => some [0, 0])
        "/t" 1).result = true
    ∧ (check_black_image true defaultConfig (fun _ => some [7]) (fun _ => some [255])
        "/t" 1).result = false :=
  ⟨(black_ratio_rule defaultConfig (fun _ => some [7]) (fun _ => some ([] : List ℕ)) "/t" 1
      [7] [] (by decide) (by decide) rfl rfl).1 (by decide),
   (black_ratio_rule defaultConfig (fun _ => some [7]) (fun _ => some [0, 0]) "/t" 1
      [7] [0, 0] (by decide) (by decide) rfl rfl).2.2.1 (by decide) (by decide) (by decide),
   (black_ratio_rule defaultConfig (fun _ => some [7]) (fun _ => some [255]) "/t" 1
      [7] [255] (by decide) (by decide) rfl rfl).2.2.2 (by decide) (by decide)⟩

/-- The action-outcome-independent part of an `ItemRecord`: which item
was dispatched and which action was decided for it. -/
def rec_keyact (r : ItemRecord) : String × EvaluationResult :=
  (r.rating_key, r.action)

lemma run_items_length (pil : Bool) (cfg : PlexConfig) (force : Bool)
    (tsec bthr : ℚ) (fetch : String → Option Bytes) (decode : Bytes → Option (List ℕ))
    (o : String → EvaluationResult → Bool) :
    ∀ (items : List CatalogItem) (recs : List ItemRecord),
      run_items pil cfg force tsec bthr fetch decode o items = some recs →
      recs.length = items.length := by
  intro items
  induction items with
  | nil =>
    intro recs h
    simp only [run_items, Option.some_inj] at h
    cases h
    rfl
  | cons item rest ih =>
    intro recs h
    simp only [run_items] at h
    cases he : evaluate_item pil cfg force tsec bthr fetch decode item with
    | none => rw [he] at h; exact absurd h (by simp)
    | some ev =>
      rw [he] at h
      dsimp only at h
      cases hr : run_items pil cfg force tsec bthr fetch decode o rest with
      | none => rw [hr] at h; exact absurd h (by simp)
      | some recs2 =>
        rw [hr] at h
        dsimp only at h
        cases h
        simp [ih recs2 hr]

lemma run_items_keyact_indep (pil : Bool) (cfg : PlexConfig) (force : Bool)
    (tsec bthr : ℚ) (fetch : String → Option Bytes) (decode : Bytes → Option (List ℕ))
    (o1 o2 : String → EvaluationResult → Bool) :
    ∀ items : List CatalogItem,
      (run_items pil cfg force tsec bthr fetch decode o1 items).map (List.map rec_keyact)
        = (run_items pil cfg force tsec bthr fetch decode o2 items).map (List.map rec_keyact) := by
  intro items
  induction items with
  | nil => rfl
  | cons item rest ih =>
    simp only [run_items]
    cases he : evaluate_item pil cfg force tsec bthr fetch decode item with
    | none => rfl
    | some ev =>
      dsimp only
      cases hr1 : run_items pil cfg force tsec bthr fetch decode o1 rest with
      | none =>
        cases hr2 : run_items pil cfg force tsec bthr fetch decode o2 rest with
        | none => rfl
        | some recs2 =>
          rw [hr1, hr2] at ih
          exact absurd ih (by simp)
      | some recs1 =>
        cases hr2 : run_items pil cfg force tsec bthr fetch decode o2 rest with
        | none =>
          rw [hr1, hr2] at ih
          exact absurd ih (by simp)
        | some recs2 =>
          rw [hr1, hr2] at ih
          simp only [Option.map_some', Option.some_inj] at ih
          simp only [Option.map_some', Option.some_inj, List.map_cons, ih]
          simp [rec_keyact]

/-- C9: a failure of the Action Executor call (`put_analyze` /
`put_refresh`) is caught inside the per-item dispatch (the action
functions are total, returning a log line for success and for caught
failure) and does not abort the run: which items get evaluated and
which actions get dispatched is independent of the action-call
outcomes, and every item of the list yields exactly one record. -/
theorem action_failures_do_not_abort (pil : Bool) (cfg : PlexConfig) (force : Bool)
    (tsec bthr : ℚ) (fetch : String → Option Bytes) (decode : Bytes → Option (List ℕ))
    (o1 o2 : String → EvaluationResult → Bool) (items : List CatalogItem) :
    ((run_items pil cfg force tsec bthr fetch decode o1 items).map (List.map rec_keyact)
      = (run_items pil cfg force tsec bthr fetch decode o2 items).map (List.map rec_keyact))
    ∧ (∀ recs : List ItemRecord,
        run_items pil cfg force tsec bthr fetch decode o1 items = some recs →
        recs.length = items.length) :=
  ⟨run_items_keyact_indep pil cfg force tsec bthr fetch decode o1 o2 items,
   fun recs h => run_items_length pil cfg force tsec bthr fetch decode o1 items recs h⟩

/-- A concrete two-item catalog for the `action_failures_do_not_abort`
witness: the first item dispatches ReAnalyze, the second Refresh. -/
def items_ex : List CatalogItem :=
  [{ rating_key := "1", title := "a", added_at := "1000", updated_at := "1005", thumb := "/t" },
   { rating_key := "2", title := "b", added_at := "1000", updated_at := "1010", thumb := "" }]

/-- Records produced for `items_ex` when every action call fails. -/
def recs_ex : List ItemRecord :=
  [{ rating_key := "1", action := EvaluationResult.ReAnalyze,
     action_log := some "ANALYZE失敗 (ratingKey=1)" },
   { rating_key := "2", action := EvaluationResult.Refresh,
     action_log := some "REFRESH失敗 (ratingKey=2)" }]

theorem action_failures_do_not_abort_witness :
    ((run_items true defaultConfig false 180 1 (fun _ => none) (fun _ => none)
        (fun _ _ => false) items_ex).map (List.map rec_keyact)
      = (run_items true defaultConfig false 180 1 (fun _ => none) (fun _ => none)
        (fun _ _ => true) items_ex).map (List.map rec_keyact))
    ∧ recs_ex.length = items_ex.length :=
  ⟨(action_failures_do_not_abort true defaultConfig false 180 1 (fun _ => none) (fun _ => none)
      (fun _ _ => false) (fun _ _ => true) items_ex).1,
   (action_failures_do_not_abort true defaultConfig false 180 1 (fun _ => none) (fun _ => none)
      (fun _ _ => false) (fun _ _ => true) items_ex).2 recs_ex (by decide)⟩
